import Mathlib

/-!
Verification of the churn elasticity model (`src/python/churn_model.py`).

The module is a deterministic analytic calculator over real-valued inputs.
Python floating-point arithmetic is modelled by exact real arithmetic (ℝ),
`np.exp` by `Real.exp`.  Python dicts with optional keys are modelled by
structures with `Option` fields and `Option.getD` for `dict.get(key, default)`.
Missing required keys (`segment['name']`, `segment['size']`), which raise
`KeyError` in Python, are modelled by the `Option` monad: the result of
`predict_churn_by_segment` is `none` exactly when a required key is absent.
Python dicts preserve insertion order, so the string-keyed result mappings are
modelled as ordered association lists.
-/

namespace ChurnModel

/-- The pre-fitted coefficient table `CHURN_COEFFICIENTS` from the source. -/
structure ModelCoefficients where
  intercept : ℝ
  price_change_pct : ℝ
  price_x_0_4wks : ℝ
  price_x_4_8wks : ℝ
  price_x_8_12wks : ℝ
  price_x_12plus : ℝ

/-- `CHURN_COEFFICIENTS = {'intercept': -2.944, 'price_change_pct': 0.01,
'price_x_0_4wks': 0.006, 'price_x_4_8wks': 0.018, 'price_x_8_12wks': 0.028,
'price_x_12plus': 0.008}`. -/
def CHURN_COEFFICIENTS : ModelCoefficients :=
  { intercept := -2.944
    price_change_pct := 0.01
    price_x_0_4wks := 0.006
    price_x_4_8wks := 0.018
    price_x_8_12wks := 0.028
    price_x_12plus := 0.008 }

/-- `logistic(x) = 1 / (1 + np.exp(-x))`. -/
noncomputable def logistic (x : ℝ) : ℝ := 1 / (1 + Real.exp (-x))

/-- A pricing scenario dict: both keys are optional
(`scenario.get('price_change_pct', 0)`, `scenario.get('baseline_churn', 0.05)`). -/
structure Scenario where
  price_change_pct : Option ℝ
  baseline_churn : Option ℝ

/-- One entry of the per-horizon result dict:
`{'churn_rate': .., 'churn_uplift': .., 'churn_uplift_pp': ..}`. -/
structure HorizonResult where
  churn_rate : ℝ
  churn_uplift : ℝ
  churn_uplift_pp : ℝ

/-- The `horizons` dict built inside `predict_churn_by_horizon`, in insertion
order: horizon name paired with its interaction coefficient. -/
def horizons : List (String × ℝ) :=
  [("0-4 Weeks", CHURN_COEFFICIENTS.price_x_0_4wks),
   ("4-8 Weeks", CHURN_COEFFICIENTS.price_x_4_8wks),
   ("8-12 Weeks", CHURN_COEFFICIENTS.price_x_8_12wks),
   ("12+ Weeks", CHURN_COEFFICIENTS.price_x_12plus)]

/-- `predict_churn_by_horizon(scenario)`: for each horizon,
`log_odds = intercept + price_change_pct_coef * price_change_pct + coef * price_change_pct`,
`churn_prob = logistic(log_odds)`, `churn_uplift = churn_prob - baseline_churn`,
`churn_uplift_pp = churn_uplift * 100`.  Returns the ordered result mapping. -/
noncomputable def predict_churn_by_horizon (s : Scenario) :
    List (String × HorizonResult) :=
  let price_change_pct := s.price_change_pct.getD 0
  let baseline_churn := s.baseline_churn.getD 0.05
  horizons.map (fun hc =>
    let log_odds := CHURN_COEFFICIENTS.intercept +
      CHURN_COEFFICIENTS.price_change_pct * price_change_pct +
      hc.2 * price_change_pct
    let churn_prob := logistic log_odds
    let churn_uplift := churn_prob - baseline_churn
    (hc.1, { churn_rate := churn_prob
             churn_uplift := churn_uplift
             churn_uplift_pp := churn_uplift * 100 }))

/-- A segment dict.  In the source `name` and `size` are accessed with
`segment['name']` / `segment['size']` (KeyError when absent), while
`elasticity` is read with `segment.get('elasticity', -2.0)`. -/
structure Segment where
  name : Option String
  size : Option ℝ
  elasticity : Option ℝ

/-- One element of the list returned by `predict_churn_by_segment`: the
`name` and `size` fields followed by the ordered `churn_<horizon_key>`
entries. -/
structure SegmentResult where
  name : String
  size : ℝ
  churn_fields : List (String × ℝ)

/-- `horizon.replace(' ', '_').replace('-', '_').replace('+', 'plus').lower()`.
All three patterns are single characters, so each `replace` acts
character-wise (`'+' → "plus"` expands one character to four) and `lower()`
maps `Char.toLower` over the result; the steps are applied in source order. -/
def horizon_key (h : String) : String :=
  String.mk ((((h.data.map (fun c => if c = ' ' then '_' else c)).map
    (fun c => if c = '-' then '_' else c)).flatMap
    (fun c => if c = '+' then ['p', 'l', 'u', 's'] else [c])).map Char.toLower)

/-- `segment_multiplier = 0.7 + (min(elasticity, 4.0) / 4.0) * 0.6` where
`elasticity = abs(segment.get('elasticity', -2.0))`; here the absolute value
is folded into the definition, which receives the raw (signed) elasticity. -/
noncomputable def segment_multiplier (elasticity : ℝ) : ℝ :=
  0.7 + (min |elasticity| 4.0 / 4.0) * 0.6

/-- `predict_churn_by_segment(scenario, segments)`: the loop over `segments`
in input order; each iteration recomputes `predict_churn_by_horizon(scenario)`,
derives the segment multiplier from the (optional) elasticity, reads the
required `name` and `size` keys (faulting when absent), and appends the scaled
per-horizon fields keyed by the normalized horizon name. -/
noncomputable def predict_churn_by_segment (s : Scenario) :
    List Segment → Option (List SegmentResult)
  | [] => some []
  | seg :: rest => do
      let hs := predict_churn_by_horizon s
      let m := segment_multiplier (seg.elasticity.getD (-2.0))
      let nm ← seg.name
      let sz ← seg.size
      let r : SegmentResult :=
        { name := nm
          size := sz
          churn_fields := hs.map (fun hv =>
            ("churn_" ++ horizon_key hv.1, hv.2.churn_uplift_pp * m)) }
      let rs ← predict_churn_by_segment s rest
      some (r :: rs)

/-! ## Basic facts about the embedding -/

lemma logistic_pos (x : ℝ) : 0 < logistic x := by
  unfold logistic
  positivity

lemma one_add_exp_pos (x : ℝ) : 0 < 1 + Real.exp x := by positivity

lemma logistic_lt_one (x : ℝ) : logistic x < 1 := by
  unfold logistic
  rw [div_lt_one (one_add_exp_pos (-x))]
  nlinarith [Real.exp_pos (-x)]

lemma logistic_lt_logistic (x y : ℝ) (h : x < y) : logistic x < logistic y := by
  unfold logistic
  apply one_div_lt_one_div_of_lt (one_add_exp_pos (-y))
  have := Real.exp_lt_exp.mpr (neg_lt_neg h)
  linarith

lemma logistic_le_logistic (x y : ℝ) (h : x ≤ y) : logistic x ≤ logistic y := by
  rcases lt_or_eq_of_le h with h' | h'
  · exact le_of_lt (logistic_lt_logistic x y h')
  · rw [h']

/-- The explicit form of `predict_churn_by_horizon`. -/
lemma predict_churn_by_horizon_eq (s : Scenario) :
    predict_churn_by_horizon s =
      [("0-4 Weeks",
        { churn_rate := logistic (-2.944 + 0.01 * s.price_change_pct.getD 0 +
            0.006 * s.price_change_pct.getD 0)
          churn_uplift := logistic (-2.944 + 0.01 * s.price_change_pct.getD 0 +
            0.006 * s.price_change_pct.getD 0) - s.baseline_churn.getD 0.05
          churn_uplift_pp := (logistic (-2.944 + 0.01 * s.price_change_pct.getD 0 +
            0.006 * s.price_change_pct.getD 0) - s.baseline_churn.getD 0.05) * 100 }),
       ("4-8 Weeks",
        { churn_rate := logistic (-2.944 + 0.01 * s.price_change_pct.getD 0 +
            0.018 * s.price_change_pct.getD 0)
          churn_uplift := logistic (-2.944 + 0.01 * s.price_change_pct.getD 0 +
            0.018 * s.price_change_pct.getD 0) - s.baseline_churn.getD 0.05
          churn_uplift_pp := (logistic (-2.944 + 0.01 * s.price_change_pct.getD 0 +
            0.018 * s.price_change_pct.getD 0) - s.baseline_churn.getD 0.05) * 100 }),
       ("8-12 Weeks",
        { churn_rate := logistic (-2.944 + 0.01 * s.price_change_pct.getD 0 +
            0.028 * s.price_change_pct.getD 0)
          churn_uplift := logistic (-2.944 + 0.01 * s.price_change_pct.getD 0 +
            0.028 * s.price_change_pct.getD 0) - s.baseline_churn.getD 0.05
          churn_uplift_pp := (logistic (-2.944 + 0.01 * s.price_change_pct.getD 0 +
            0.028 * s.price_change_pct.getD 0) - s.baseline_churn.getD 0.05) * 100 }),
       ("12+ Weeks",
        { churn_rate := logistic (-2.944 + 0.01 * s.price_change_pct.getD 0 +
            0.008 * s.price_change_pct.getD 0)
          churn_uplift := logistic (-2.944 + 0.01 * s.price_change_pct.getD 0 +
            0.008 * s.price_change_pct.getD 0) - s.baseline_churn.getD 0.05
          churn_uplift_pp := (logistic (-2.944 + 0.01 * s.price_change_pct.getD 0 +
            0.008 * s.price_change_pct.getD 0) - s.baseline_churn.getD 0.05) * 100 })] := by
  simp [predict_churn_by_horizon, horizons, CHURN_COEFFICIENTS]

/-- Numeric bound used for uplift positivity: `exp 2.944 < 19`, i.e. the
intercept `-2.944` sits slightly above the log-odds of 5% churn (`-ln 19`). -/
lemma exp_intercept_lt : Real.exp 2.944 < 19 := by
  have h1 : Real.exp 0.056 = Real.exp 0.007 ^ (8 : ℕ) := by
    rw [← Real.exp_nat_mul]; norm_num
  have h2 : (1.007 : ℝ) ^ (8 : ℕ) ≤ Real.exp 0.007 ^ (8 : ℕ) := by
    apply pow_le_pow_left₀ (by norm_num)
    have := Real.add_one_le_exp (0.007 : ℝ)
    linarith
  have h3 : Real.exp 2.944 = Real.exp 3 / Real.exp 0.056 := by
    rw [← Real.exp_sub]; norm_num
  have h4 : Real.exp 3 = Real.exp 1 ^ (3 : ℕ) := by
    rw [← Real.exp_nat_mul]; norm_num
  have h5 : Real.exp 1 ^ (3 : ℕ) < 2.7182818286 ^ (3 : ℕ) :=
    pow_lt_pow_left₀ Real.exp_one_lt_d9 (le_of_lt (Real.exp_pos 1)) (by norm_num)
  have h6 : Real.exp 2.944 < 2.7182818286 ^ (3 : ℕ) / 1.007 ^ (8 : ℕ) := by
    rw [h3]
    apply div_lt_div₀ (by rw [h4]; exact h5) (by rw [h1]; exact h2)
      (by positivity) (by positivity)
  calc Real.exp 2.944 < 2.7182818286 ^ (3 : ℕ) / 1.007 ^ (8 : ℕ) := h6
    _ < 19 := by norm_num

/-- The baseline churn rate implied by the intercept exceeds 5%. -/
lemma logistic_intercept_gt : (0.05 : ℝ) < logistic (-2.944) := by
  unfold logistic
  have hx : -(-2.944 : ℝ) = 2.944 := by norm_num
  rw [hx]
  have h19 := exp_intercept_lt
  have hpos : (0 : ℝ) < 1 + Real.exp 2.944 := one_add_exp_pos 2.944
  have : (1 : ℝ) / 20 < 1 / (1 + Real.exp 2.944) :=
    one_div_lt_one_div_of_lt hpos (by linarith)
  linarith

/-- The logistic of a negative argument is below one half. -/
lemma logistic_neg_lt_half (x : ℝ) (hx : x < 0) : logistic x < 1 / 2 := by
  unfold logistic
  have h1 : (1 : ℝ) < Real.exp (-x) := Real.one_lt_exp_iff.mpr (by linarith)
  have hpos : (0 : ℝ) < 1 + Real.exp (-x) := one_add_exp_pos (-x)
  have : (1 : ℝ) / (1 + Real.exp (-x)) < 1 / 2 :=
    one_div_lt_one_div_of_lt (by norm_num) (by linarith)
  exact this

/-! ## Claims -/

/-- C1: for every scenario (with `price_change_pct` defaulting to 0 and
`baseline_churn` defaulting to 0.05 when absent), each of the four horizons
with interaction coefficient `coef` yields `churn_rate =
logistic(-2.944 + 0.01*price_change_pct + coef*price_change_pct)`,
`churn_uplift = churn_rate - baseline_churn` and
`churn_uplift_pp = churn_uplift * 100`; in particular at
`price_change_pct = 0`, `baseline_churn = 0.05`, every horizon's
`churn_rate` is `logistic (-2.944)`. -/
theorem C1_horizon_formula (s : Scenario) :
    (∀ r ∈ predict_churn_by_horizon s, ∃ coef : ℝ, (r.1, coef) ∈ horizons ∧
      r.2.churn_rate = logistic (-2.944 + 0.01 * s.price_change_pct.getD 0 +
        coef * s.price_change_pct.getD 0) ∧
      r.2.churn_uplift = r.2.churn_rate - s.baseline_churn.getD 0.05 ∧
      r.2.churn_uplift_pp = r.2.churn_uplift * 100) ∧
    ∀ r ∈ predict_churn_by_horizon ⟨some 0, some 0.05⟩,
      r.2.churn_rate = logistic (-2.944) := by
  constructor
  · intro r hr
    rw [predict_churn_by_horizon_eq] at hr
    simp only [List.mem_cons, List.not_mem_nil, or_false] at hr
    rcases hr with h | h | h | h <;> subst h
    · exact ⟨0.006, by simp [horizons, CHURN_COEFFICIENTS], rfl, rfl, rfl⟩
    · exact ⟨0.018, by simp [horizons, CHURN_COEFFICIENTS], rfl, rfl, rfl⟩
    · exact ⟨0.028, by simp [horizons, CHURN_COEFFICIENTS], rfl, rfl, rfl⟩
    · exact ⟨0.008, by simp [horizons, CHURN_COEFFICIENTS], rfl, rfl, rfl⟩
  · intro r hr
    rw [predict_churn_by_horizon_eq] at hr
    simp only [List.mem_cons, List.not_mem_nil, or_false] at hr
    rcases hr with h | h | h | h <;> subst h <;>
      simp only [Option.getD_some] <;> norm_num

/-- C1 witness: the first-horizon entry of the default scenario has
`churn_rate = logistic (-2.944)`. -/
theorem C1_horizon_formula_witness :
    ((predict_churn_by_horizon ⟨some 0, some 0.05⟩).getD 0
      ("", ⟨0, 0, 0⟩)).2.churn_rate = logistic (-2.944) := by
  apply (C1_horizon_formula ⟨some 0, some 0.05⟩).2
  rw [predict_churn_by_horizon_eq]
  simp only [List.getD_cons_zero]
  exact List.mem_cons_self _ _

/-- C2: `logistic` is total on ℝ and lands strictly inside (0,1); hence every
`churn_rate` produced by `predict_churn_by_horizon` lies strictly in (0,1). -/
theorem C2_logistic_range :
    (∀ x : ℝ, 0 < logistic x ∧ logistic x < 1) ∧
    ∀ (s : Scenario), ∀ r ∈ predict_churn_by_horizon s,
      0 < r.2.churn_rate ∧ r.2.churn_rate < 1 := by
  refine ⟨fun x => ⟨logistic_pos x, logistic_lt_one x⟩, fun s r hr => ?_⟩
  rw [predict_churn_by_horizon_eq] at hr
  simp only [List.mem_cons, List.not_mem_nil, or_false] at hr
  rcases hr with h | h | h | h <;> subst h <;>
    exact ⟨logistic_pos _, logistic_lt_one _⟩

/-- C2 witness: the range bounds hold at `x = 0` and at the first horizon
entry of the default scenario. -/
theorem C2_logistic_range_witness :
    (0 < logistic 0 ∧ logistic 0 < 1) ∧
    (0 < ((predict_churn_by_horizon ⟨none, none⟩).getD 0
        ("", ⟨0, 0, 0⟩)).2.churn_rate ∧
      ((predict_churn_by_horizon ⟨none, none⟩).getD 0
        ("", ⟨0, 0, 0⟩)).2.churn_rate < 1) := by
  refine ⟨C2_logistic_range.1 0, ?_⟩
  apply C2_logistic_range.2 ⟨none, none⟩
  rw [predict_churn_by_horizon_eq]
  simp only [List.getD_cons_zero]
  exact List.mem_cons_self _ _

/-- C3: the segment multiplier always lies in [0.7, 1.3]; it equals 1.3
exactly whenever the elasticity magnitude is at least 4.0, and equals 0.7 at
elasticity 0. -/
theorem C3_multiplier_bounds (e : ℝ) :
    0.7 ≤ segment_multiplier e ∧ segment_multiplier e ≤ 1.3 ∧
    (4.0 ≤ |e| → segment_multiplier e = 1.3) ∧ segment_multiplier 0 = 0.7 := by
  have hmin0 : (0 : ℝ) ≤ min |e| 4.0 := le_min (abs_nonneg e) (by norm_num)
  have hmin4 : min |e| 4.0 ≤ 4.0 := min_le_right _ _
  refine ⟨?_, ?_, ?_, ?_⟩
  · unfold segment_multiplier; nlinarith
  · unfold segment_multiplier; nlinarith
  · intro h4
    unfold segment_multiplier
    rw [min_eq_right h4]
    norm_num
  · unfold segment_multiplier
    norm_num

/-- C3 witness: at elasticity -5 the clamp gives exactly 1.3, and at 0 the
multiplier is exactly 0.7. -/
theorem C3_multiplier_bounds_witness :
    segment_multiplier (-5) = 1.3 ∧ segment_multiplier 0 = 0.7 :=
  ⟨(C3_multiplier_bounds (-5)).2.2.1 (by norm_num), (C3_multiplier_bounds 0).2.2.2⟩

lemma segment_multiplier_neg_two : segment_multiplier (-2.0) = 1 := by
  unfold segment_multiplier
  rw [show |(-2.0 : ℝ)| = 2 by rw [abs_of_neg] <;> norm_num]
  rw [min_eq_left (by norm_num : (2 : ℝ) ≤ 4.0)]
  norm_num

/-- C4: a segment with elasticity -2.0 gets multiplier exactly 1, so its
scaled per-horizon fields coincide exactly with the unscaled
`churn_uplift_pp` values of `predict_churn_by_horizon`. -/
theorem C4_neutral_elasticity (s : Scenario) (nm : String) (sz : ℝ) :
    segment_multiplier (-2.0) = 1 ∧
    predict_churn_by_segment s [⟨some nm, some sz, some (-2.0)⟩] =
      some [{ name := nm, size := sz,
              churn_fields := (predict_churn_by_horizon s).map
                (fun hv => ("churn_" ++ horizon_key hv.1, hv.2.churn_uplift_pp)) }] := by
  refine ⟨segment_multiplier_neg_two, ?_⟩
  simp [predict_churn_by_segment, segment_multiplier_neg_two]

/-- C5: with the baseline held fixed, a strictly larger price change gives a
strictly larger `churn_rate` on every horizon. -/
theorem C5_rate_monotone (p1 p2 : ℝ) (b : Option ℝ) (h : p1 < p2) :
    List.Forall₂
      (fun r1 r2 : String × HorizonResult => r1.2.churn_rate < r2.2.churn_rate)
      (predict_churn_by_horizon ⟨some p1, b⟩)
      (predict_churn_by_horizon ⟨some p2, b⟩) := by
  rw [predict_churn_by_horizon_eq, predict_churn_by_horizon_eq]
  simp only [Option.getD_some]
  refine List.Forall₂.cons ?_ (List.Forall₂.cons ?_ (List.Forall₂.cons ?_
    (List.Forall₂.cons ?_ List.Forall₂.nil))) <;>
    exact logistic_lt_logistic _ _ (by linarith)

/-- C5 witness: applied at prices 0 < 1 with baseline 0.05. -/
theorem C5_rate_monotone_witness :
    List.Forall₂
      (fun r1 r2 : String × HorizonResult => r1.2.churn_rate < r2.2.churn_rate)
      (predict_churn_by_horizon ⟨some 0, some 0.05⟩)
      (predict_churn_by_horizon ⟨some 1, some 0.05⟩) :=
  C5_rate_monotone 0 1 (some 0.05) zero_lt_one

/-- C6 counterexample: at `price_change_pct = 1 > 0` with
`baseline_churn = 0.9`, the "12+ Weeks" `churn_uplift_pp` is negative, so the
claim's unconditional positivity fails. -/
theorem C6_counterexample :
    (0 : ℝ) < 1 ∧
    ((predict_churn_by_horizon ⟨some 1, some 0.9⟩).getD 3 ("", ⟨0, 0, 0⟩)).1 =
      "12+ Weeks" ∧
    ((predict_churn_by_horizon ⟨some 1, some 0.9⟩).getD 3
      ("", ⟨0, 0, 0⟩)).2.churn_uplift_pp < 0 := by
  refine ⟨by norm_num, ?_, ?_⟩
  · rw [predict_churn_by_horizon_eq]
    simp only [List.getD_cons_succ, List.getD_cons_zero]
  · rw [predict_churn_by_horizon_eq]
    simp only [List.getD_cons_succ, List.getD_cons_zero, Option.getD_some]
    have hl := logistic_neg_lt_half (-2.944 + 0.01 * 1 + 0.008 * 1) (by norm_num)
    linarith

/-- C6 amended: for every price change p > 0 (any baseline), the
`churn_uplift_pp` ordering "8-12 Weeks" ≥ "4-8 Weeks" ≥ "0-4 Weeks" holds and
the "12+ Weeks" uplift is strictly below the "8-12 Weeks" uplift; the
"12+ Weeks" uplift is moreover positive provided the (defaulted) baseline
churn is at most 0.05. -/
theorem C6_uplift_ordering (p : ℝ) (b : Option ℝ) (hp : 0 < p) :
    ((predict_churn_by_horizon ⟨some p, b⟩).getD 0
        ("", ⟨0, 0, 0⟩)).2.churn_uplift_pp ≤
      ((predict_churn_by_horizon ⟨some p, b⟩).getD 1
        ("", ⟨0, 0, 0⟩)).2.churn_uplift_pp ∧
    ((predict_churn_by_horizon ⟨some p, b⟩).getD 1
        ("", ⟨0, 0, 0⟩)).2.churn_uplift_pp ≤
      ((predict_churn_by_horizon ⟨some p, b⟩).getD 2
        ("", ⟨0, 0, 0⟩)).2.churn_uplift_pp ∧
    ((predict_churn_by_horizon ⟨some p, b⟩).getD 3
        ("", ⟨0, 0, 0⟩)).2.churn_uplift_pp <
      ((predict_churn_by_horizon ⟨some p, b⟩).getD 2
        ("", ⟨0, 0, 0⟩)).2.churn_uplift_pp ∧
    (b.getD 0.05 ≤ 0.05 →
      0 < ((predict_churn_by_horizon ⟨some p, b⟩).getD 3
        ("", ⟨0, 0, 0⟩)).2.churn_uplift_pp) := by
  rw [predict_churn_by_horizon_eq]
  simp only [List.getD_cons_succ, List.getD_cons_zero, Option.getD_some]
  refine ⟨?_, ?_, ?_, ?_⟩
  · have := logistic_le_logistic (-2.944 + 0.01 * p + 0.006 * p)
      (-2.944 + 0.01 * p + 0.018 * p) (by linarith)
    linarith
  · have := logistic_le_logistic (-2.944 + 0.01 * p + 0.018 * p)
      (-2.944 + 0.01 * p + 0.028 * p) (by linarith)
    linarith
  · have := logistic_lt_logistic (-2.944 + 0.01 * p + 0.008 * p)
      (-2.944 + 0.01 * p + 0.028 * p) (by linarith)
    linarith
  · intro hb
    have h1 := logistic_lt_logistic (-2.944)
      (-2.944 + 0.01 * p + 0.008 * p) (by linarith)
    have h2 := logistic_intercept_gt
    linarith

/-- C6 witness: at p = 1 with the default baseline 0.05 the "12+ Weeks"
uplift is positive. -/
theorem C6_uplift_ordering_witness :
    0 < ((predict_churn_by_horizon ⟨some 1, some 0.05⟩).getD 3
      ("", ⟨0, 0, 0⟩)).2.churn_uplift_pp :=
  (C6_uplift_ordering 1 (some 0.05) zero_lt_one).2.2.2 (le_refl _)

/-- C7: a segment lacking `name` or `size` makes the whole call fault
(modelled as `none`), whereas a segment lacking `elasticity` is processed
exactly as if its elasticity were -2.0, without faulting. -/
theorem C7_missing_fields (s : Scenario) :
    (∀ (segs : List Segment), ∀ seg ∈ segs,
      (seg.name = none ∨ seg.size = none) →
        predict_churn_by_segment s segs = none) ∧
    (∀ (nm : String) (sz : ℝ),
      predict_churn_by_segment s [⟨some nm, some sz, none⟩] =
        predict_churn_by_segment s [⟨some nm, some sz, some (-2.0)⟩] ∧
      (predict_churn_by_segment s [⟨some nm, some sz, none⟩]).isSome = true) := by
  constructor
  · intro segs
    induction segs with
    | nil => intro seg hmem; exact absurd hmem (List.not_mem_nil seg)
    | cons a rest ih =>
      intro seg hmem hfault
      rcases List.mem_cons.mp hmem with rfl | htail
      · rcases hfault with hn | hsz
        · simp [predict_churn_by_segment, hn]
        · cases hname : seg.name <;>
            simp [predict_churn_by_segment, hname, hsz]
      · have hrest := ih seg htail hfault
        cases hname : a.name <;> cases hsize : a.size <;>
          simp [predict_churn_by_segment, hname, hsize, hrest]
  · intro nm sz
    constructor
    · simp [predict_churn_by_segment]
    · simp [predict_churn_by_segment]

/-- C7 witness: a singleton segment list whose segment lacks `name` faults,
while one lacking only `elasticity` does not. -/
theorem C7_missing_fields_witness :
    predict_churn_by_segment ⟨none, none⟩ [⟨none, some 1, none⟩] = none ∧
    (predict_churn_by_segment ⟨none, none⟩
      [⟨some "s", some 1, none⟩]).isSome = true :=
  ⟨(C7_missing_fields ⟨none, none⟩).1 [⟨none, some 1, none⟩] ⟨none, some 1, none⟩
      (List.mem_singleton.mpr rfl) (Or.inl rfl),
   ((C7_missing_fields ⟨none, none⟩).2 "s" 1).2⟩

lemma churn_key_0_4 : "churn_" ++ horizon_key "0-4 Weeks" = "churn_0_4_weeks" := by
  rfl

lemma churn_key_4_8 : "churn_" ++ horizon_key "4-8 Weeks" = "churn_4_8_weeks" := by
  rfl

lemma churn_key_8_12 :
    "churn_" ++ horizon_key "8-12 Weeks" = "churn_8_12_weeks" := by
  rfl

lemma churn_key_12plus :
    "churn_" ++ horizon_key "12+ Weeks" = "churn_12plus_weeks" := by
  rfl

/-- C8: the four scaled fields are keyed `churn_0_4_weeks`, `churn_4_8_weeks`,
`churn_8_12_weeks`, `churn_12plus_weeks` (space→`_`, hyphen→`_`, `+`→`plus`,
lowercased, prefixed with `churn_`) and each value is the horizon's
`churn_uplift_pp` times the segment multiplier. -/
theorem C8_field_keys (s : Scenario) (nm : String) (sz e : ℝ) :
    predict_churn_by_segment s [⟨some nm, some sz, some e⟩] =
      some [{ name := nm, size := sz,
              churn_fields :=
                [("churn_0_4_weeks",
                  ((logistic (-2.944 + 0.01 * s.price_change_pct.getD 0 +
                      0.006 * s.price_change_pct.getD 0) -
                    s.baseline_churn.getD 0.05) * 100) * segment_multiplier e),
                 ("churn_4_8_weeks",
                  ((logistic (-2.944 + 0.01 * s.price_change_pct.getD 0 +
                      0.018 * s.price_change_pct.getD 0) -
                    s.baseline_churn.getD 0.05) * 100) * segment_multiplier e),
                 ("churn_8_12_weeks",
                  ((logistic (-2.944 + 0.01 * s.price_change_pct.getD 0 +
                      0.028 * s.price_change_pct.getD 0) -
                    s.baseline_churn.getD 0.05) * 100) * segment_multiplier e),
                 ("churn_12plus_weeks",
                  ((logistic (-2.944 + 0.01 * s.price_change_pct.getD 0 +
                      0.008 * s.price_change_pct.getD 0) -
                    s.baseline_churn.getD 0.05) * 100) * segment_multiplier e)] }] := by
  simp [predict_churn_by_segment, predict_churn_by_horizon_eq,
    churn_key_0_4, churn_key_4_8, churn_key_8_12, churn_key_12plus]

/-- On success, `predict_churn_by_segment` pairs the input segments with the
results in order, copying `name` and `size` through unchanged. -/
lemma predict_segment_copies (s : Scenario) (segs : List Segment) :
    ∀ res : List SegmentResult, predict_churn_by_segment s segs = some res →
      List.Forall₂
        (fun seg r => seg.name = some r.name ∧ seg.size = some r.size)
        segs res := by
  induction segs with
  | nil =>
    intro res h
    simp only [predict_churn_by_segment, Option.some.injEq] at h
    subst h
    exact List.Forall₂.nil
  | cons a rest ih =>
    intro res h
    cases hname : a.name with
    | none => simp [predict_churn_by_segment, hname] at h
    | some nm =>
      cases hsize : a.size with
      | none => simp [predict_churn_by_segment, hname, hsize] at h
      | some sz =>
        cases hrec : predict_churn_by_segment s rest with
        | none => simp [predict_churn_by_segment, hname, hsize, hrec] at h
        | some rs =>
          simp [predict_churn_by_segment, hname, hsize, hrec] at h
          subst h
          exact List.Forall₂.cons ⟨hname, hsize⟩ (ih rs hrec)

/-- On success, the scaled churn fields of the results depend only on the
scenario and the position-wise elasticities of the segments. -/
lemma predict_segment_fields_eq (s : Scenario) (segs1 : List Segment) :
    ∀ (segs2 : List Segment) (r1 r2 : List SegmentResult),
      segs1.map Segment.elasticity = segs2.map Segment.elasticity →
      predict_churn_by_segment s segs1 = some r1 →
      predict_churn_by_segment s segs2 = some r2 →
      r1.map SegmentResult.churn_fields = r2.map SegmentResult.churn_fields := by
  induction segs1 with
  | nil =>
    intro segs2 r1 r2 he h1 h2
    cases segs2 with
    | nil =>
      simp only [predict_churn_by_segment, Option.some.injEq] at h1 h2
      subst h1; subst h2; rfl
    | cons b bs => simp at he
  | cons a as ih =>
    intro segs2 r1 r2 he h1 h2
    cases segs2 with
    | nil => simp at he
    | cons b bs =>
      simp only [List.map_cons, List.cons.injEq] at he
      obtain ⟨hab, hrest⟩ := he
      cases hname1 : a.name with
      | none => simp [predict_churn_by_segment, hname1] at h1
      | some nm1 =>
      cases hsize1 : a.size with
      | none => simp [predict_churn_by_segment, hname1, hsize1] at h1
      | some sz1 =>
      cases hrec1 : predict_churn_by_segment s as with
      | none => simp [predict_churn_by_segment, hname1, hsize1, hrec1] at h1
      | some rs1 =>
      cases hname2 : b.name with
      | none => simp [predict_churn_by_segment, hname2] at h2
      | some nm2 =>
      cases hsize2 : b.size with
      | none => simp [predict_churn_by_segment, hname2, hsize2] at h2
      | some sz2 =>
      cases hrec2 : predict_churn_by_segment s bs with
      | none => simp [predict_churn_by_segment, hname2, hsize2, hrec2] at h2
      | some rs2 =>
      simp [predict_churn_by_segment, hname1, hsize1, hrec1] at h1
      simp [predict_churn_by_segment, hname2, hsize2, hrec2] at h2
      subst h1; subst h2
      simp only [List.map_cons, List.cons.injEq]
      exact ⟨by rw [hab], ih bs rs1 rs2 hrest hrec1 hrec2⟩

/-- C9: a successful call returns exactly one result per input segment, in
input order (the i-th result carries the i-th segment's `name` and `size`,
whatever those values are). -/
theorem C9_order_preserved (s : Scenario) (segs : List Segment)
    (res : List SegmentResult)
    (h : predict_churn_by_segment s segs = some res) :
    res.length = segs.length ∧
    List.Forall₂
      (fun seg r => seg.name = some r.name ∧ seg.size = some r.size)
      segs res :=
  ⟨(predict_segment_copies s segs res h).length_eq.symm,
   predict_segment_copies s segs res h⟩

/-- C9 witness: the empty segment list succeeds with the empty result list. -/
theorem C9_order_preserved_witness :
    ([] : List SegmentResult).length = ([] : List Segment).length ∧
    List.Forall₂
      (fun (seg : Segment) (r : SegmentResult) =>
        seg.name = some r.name ∧ seg.size = some r.size)
      [] [] :=
  C9_order_preserved ⟨none, none⟩ [] [] rfl

/-- C10: the numeric churn fields of the results depend only on the scenario
and each segment's elasticity — two successful calls whose segment lists agree
position-wise on elasticity produce identical churn fields, and `name` and
`size` are copied through unchanged. -/
theorem C10_noninterference (s : Scenario) (segs1 segs2 : List Segment)
    (r1 r2 : List SegmentResult)
    (he : segs1.map Segment.elasticity = segs2.map Segment.elasticity)
    (h1 : predict_churn_by_segment s segs1 = some r1)
    (h2 : predict_churn_by_segment s segs2 = some r2) :
    r1.map SegmentResult.churn_fields = r2.map SegmentResult.churn_fields ∧
    List.Forall₂
      (fun seg r => seg.name = some r.name ∧ seg.size = some r.size)
      segs1 r1 :=
  ⟨predict_segment_fields_eq s segs1 segs2 r1 r2 he h1 h2,
   predict_segment_copies s segs1 r1 h1⟩

/-- C10 witness: applied to two empty segment lists. -/
theorem C10_noninterference_witness :
    ([] : List SegmentResult).map SegmentResult.churn_fields =
      ([] : List SegmentResult).map SegmentResult.churn_fields ∧
    List.Forall₂
      (fun (seg : Segment) (r : SegmentResult) =>
        seg.name = some r.name ∧ seg.size = some r.size)
      [] [] :=
  C10_noninterference ⟨none, none⟩ [] [] [] [] rfl rfl rfl

end ChurnModel
